import Mathlib

/-!
# Fixed-rate clock with enable hooks, and the 24bpp framebuffer pin setup

Shallow embedding of `drivers/clk/clk-fixed-rate_wen.c` and
`arch/arm/mach-s3c64xx/setup-fb-24bpp.c`.

Both files are adapters around the kernel.  Every kernel routine they call is
an oracle of a host record; the oracle sees the whole current state (live
descriptors and the history of calls), so the host may answer differently at
each call.  Every call into the kernel is appended to a trace, in program
order, which is what the statements about "calls" refer to.

Pointers are identities (natural numbers); `NULL` is `none`.  `unsigned long`
and `u32` values are natural numbers: the code only copies them, it performs
no arithmetic that could wrap.
-/

set_option autoImplicit false

/-! ## Error pointers (`linux/err.h`) -/

/-- A pointer that follows the kernel error-pointer convention: either a
status wrapped by `ERR_PTR`, or an ordinary pointer value.  Kernel statuses are
0 or a negated errno, and for those `IS_ERR` recognises exactly the wrapped
ones; the encoding of the codes into the top page of the address space is not
represented. -/
inductive ErrPtr (α : Type) where
  | err (code : Int)
  | ptr (p : α)
  deriving DecidableEq, Repr

/-- The kernel `ERR_PTR`: wrap an error code as a pointer. -/
def ERR_PTR {α : Type} (code : Int) : ErrPtr α := ErrPtr.err code

/-- The kernel `IS_ERR`: does the pointer carry an error code. -/
def IS_ERR {α : Type} : ErrPtr α → Bool
  | ErrPtr.err _ => true
  | ErrPtr.ptr _ => false

/-- The kernel `PTR_ERR`: the code carried by an error pointer. -/
def PTR_ERR {α : Type} : ErrPtr α → Option Int
  | ErrPtr.err c => some c
  | ErrPtr.ptr _ => none

namespace ClkFixedRateWen

/-! ## Data model -/

/-- Address of an operations table.  The file defines one table,
`clk_fixed_rate_wen_ops`; any other table lives elsewhere in the kernel. -/
inductive clk_ops_ref where
  | clk_fixed_rate_wen_ops
  | other (addr : Nat)
  deriving DecidableEq, Repr

/-- The `struct clk_init_data` of `linux/clk-provider.h`, with the fields this
file writes.  `parent_names` is `NULL` or an array of parent names. -/
structure clk_init_data where
  name : Option String
  ops : clk_ops_ref
  parent_names : Option (List String)
  num_parents : Nat
  flags : Nat
  deriving DecidableEq, Repr

/-- The generic clock-hardware handle `struct clk_hw`, owned by the clock
framework: its `core` and `clk` back-pointers and the registration data. -/
structure clk_hw where
  core : Option Nat
  clk : Option Nat
  init : Option clk_init_data
  deriving DecidableEq, Repr

/-- Modelled from the spec: `struct clk_fixed_rate_wen` is declared in
`linux/clk-provider.h`, which is not part of the sources at hand.  The spec
describes it as a clock descriptor holding a fixed rate, a fixed accuracy, a
device back-reference, and two optional function pointers for hardware
enable/disable, embedded in a generic clock-hardware handle; the field names
are the ones the C file uses. -/
structure clk_fixed_rate_wen where
  hw : clk_hw
  dev : Option Nat
  enable : Option Nat
  disable : Option Nat
  fixed_rate : Nat
  fixed_accuracy : Nat
  deriving DecidableEq, Repr

/-- The part of `struct device_node` this file reads: the node name.  `id`
stands for the identity of the node. -/
structure device_node where
  id : Nat
  name : Option String
  deriving DecidableEq, Repr

/-- Calls into the kernel, as they appear in the trace. -/
inductive Event where
  | kzalloc
  | kfree (p : Nat)
  | clk_hw_register (dev : Option Nat) (hw : Nat) (fixed : clk_fixed_rate_wen)
  | call_enable (fn : Nat) (dev : Option Nat)
  | call_disable (fn : Nat)
  | of_property_read_u32 (node : device_node) (propname : String)
  | of_property_read_string (node : device_node) (propname : String)
  | of_clk_add_provider (node : device_node) (clk : Option Nat)
  deriving DecidableEq, Repr

/-- Program state: the live descriptors by address, and the calls made so
far, oldest first. -/
structure State where
  heap : List (Nat × clk_fixed_rate_wen)
  trace : List Event
  deriving DecidableEq, Repr

/-- The kernel, as far as this file depends on it.  `ENOMEM` and
`CLK_IS_BASIC` are constants of headers that are not at hand.  `kzalloc`
answers `none` for `NULL`.  `clk_hw_register` answers its status and the
contents it leaves in the handle.  `enable_cb` gives the value returned by
the enable function at the given address.  The property readers answer
`none` when they return nonzero, in which case they leave the output
untouched. -/
structure Host where
  ENOMEM : Nat
  CLK_IS_BASIC : Nat
  kzalloc : State → Option Nat
  clk_hw_register : State → Option Nat → Nat → Int × clk_hw
  enable_cb : State → Nat → Option Nat → Int
  of_property_read_u32 : State → device_node → String → Option Nat
  of_property_read_string : State → device_node → String → Option String

/-- Append a call to the trace. -/
def emit (e : Event) (s : State) : State :=
  { s with trace := s.trace ++ [e] }

/-- Write a descriptor at an address. -/
def store (p : Nat) (d : clk_fixed_rate_wen) (s : State) : State :=
  { s with heap := (p, d) :: s.heap.filter (fun q => q.1 != p) }

/-- The kernel `kfree`: the call is traced and the object is gone. -/
def kfree (p : Nat) (s : State) : State :=
  emit (Event.kfree p) { s with heap := s.heap.filter (fun q => q.1 != p) }

/-- The macro `to_clk_fixed_rate_wen` (`container_of`): the descriptor in
which the handle is embedded; `none` when the handle does not point into a
live descriptor. -/
def to_clk_fixed_rate_wen (s : State) (hw : Nat) : Option clk_fixed_rate_wen :=
  s.heap.lookup hw

/-! ## The clock operations -/

/-- Source: `clk_fixed_rate_wen_enable`. -/
def clk_fixed_rate_wen_enable (k : Host) (hw : Nat) (s : State) : Option (Int × State) :=
  match to_clk_fixed_rate_wen s hw with
  | none => none
  | some fixed =>
    match fixed.enable with
    | some fn => some (k.enable_cb s fn fixed.dev, emit (Event.call_enable fn fixed.dev) s)
    | none => some (0, s)

/-- Source: `clk_fixed_rate_wen_disable`. -/
def clk_fixed_rate_wen_disable (hw : Nat) (s : State) : Option State :=
  match to_clk_fixed_rate_wen s hw with
  | none => none
  | some fixed =>
    match fixed.disable with
    | some fn => some (emit (Event.call_disable fn) s)
    | none => some s

/-- Source: `clk_fixed_rate_wen_recalc_rate`. -/
def clk_fixed_rate_wen_recalc_rate (s : State) (hw : Nat) (_parent_rate : Nat) : Option Nat :=
  (to_clk_fixed_rate_wen s hw).map (fun fixed => fixed.fixed_rate)

/-- Source: `clk_fixed_rate_wen_recalc_accuracy`. -/
def clk_fixed_rate_wen_recalc_accuracy (s : State) (hw : Nat) (_parent_accuracy : Nat) :
    Option Nat :=
  (to_clk_fixed_rate_wen s hw).map (fun fixed => fixed.fixed_accuracy)

/-! ## Registration -/

/-- The `init` local of `clk_hw_register_fixed_rate_wen_with_accuracy`, as
filled in before the registration call. -/
def init_data (k : Host) (name parent_name : Option String) (flags : Nat) : clk_init_data :=
  { name := name
    ops := clk_ops_ref.clk_fixed_rate_wen_ops
    flags := flags ||| k.CLK_IS_BASIC
    parent_names := match parent_name with
      | some p => some [p]
      | none => none
    num_parents := match parent_name with
      | some _ => 1
      | none => 0 }

/-- The descriptor as filled in before the registration call: zeroed by
`kzalloc`, then assigned field by field. -/
def filled (k : Host) (dev : Option Nat) (name parent_name : Option String)
    (flags fixed_rate fixed_accuracy : Nat) (en_ptr dis_ptr : Option Nat) : clk_fixed_rate_wen :=
  { hw := { core := none, clk := none, init := some (init_data k name parent_name flags) }
    dev := dev
    enable := en_ptr
    disable := dis_ptr
    fixed_rate := fixed_rate
    fixed_accuracy := fixed_accuracy }

/-- Source: `clk_hw_register_fixed_rate_wen_with_accuracy`. -/
def clk_hw_register_fixed_rate_wen_with_accuracy (k : Host) (dev : Option Nat)
    (name parent_name : Option String) (flags fixed_rate fixed_accuracy : Nat)
    (en_ptr dis_ptr : Option Nat) (s : State) : ErrPtr Nat × State :=
  let s1 := emit Event.kzalloc s
  match k.kzalloc s with
  | none => (ERR_PTR (-(k.ENOMEM : Int)), s1)
  | some fixed =>
    let d := filled k dev name parent_name flags fixed_rate fixed_accuracy en_ptr dis_ptr
    let s2 := store fixed d s1
    let r := k.clk_hw_register s2 dev fixed
    let s3 := store fixed { d with hw := r.2 } (emit (Event.clk_hw_register dev fixed d) s2)
    if r.1 ≠ 0 then (ERR_PTR r.1, kfree fixed s3) else (ErrPtr.ptr fixed, s3)

/-- Source: `clk_register_fixed_rate_wen_with_accuracy`.  The result is an
error pointer or the `clk` field of the handle. -/
def clk_register_fixed_rate_wen_with_accuracy (k : Host) (dev : Option Nat)
    (name parent_name : Option String) (flags fixed_rate fixed_accuracy : Nat)
    (en_ptr dis_ptr : Option Nat) (s : State) : Option (ErrPtr (Option Nat) × State) :=
  let r := clk_hw_register_fixed_rate_wen_with_accuracy k dev name parent_name flags
    fixed_rate fixed_accuracy en_ptr dis_ptr s
  match r.1 with
  | ErrPtr.err c => some (ErrPtr.err c, r.2)
  | ErrPtr.ptr hw =>
    match to_clk_fixed_rate_wen r.2 hw with
    | none => none
    | some fixed => some (ErrPtr.ptr fixed.hw.clk, r.2)

/-- Source: `clk_hw_register_fixed_rate_wen`. -/
def clk_hw_register_fixed_rate_wen (k : Host) (dev : Option Nat)
    (name parent_name : Option String) (flags fixed_rate : Nat)
    (en_ptr dis_ptr : Option Nat) (s : State) : ErrPtr Nat × State :=
  clk_hw_register_fixed_rate_wen_with_accuracy k dev name parent_name flags fixed_rate 0
    en_ptr dis_ptr s

/-- Source: `clk_register_fixed_rate_wen`. -/
def clk_register_fixed_rate_wen (k : Host) (dev : Option Nat)
    (name parent_name : Option String) (flags fixed_rate : Nat)
    (en_ptr dis_ptr : Option Nat) (s : State) : Option (ErrPtr (Option Nat) × State) :=
  clk_register_fixed_rate_wen_with_accuracy k dev name parent_name flags fixed_rate 0
    en_ptr dis_ptr s

/-- Source: `of_fixed_clk_setup_wen`. -/
def of_fixed_clk_setup_wen (k : Host) (node : device_node) (s : State) : Option State :=
  let s1 := emit (Event.of_property_read_u32 node "clock-frequency") s
  match k.of_property_read_u32 s node "clock-frequency" with
  | none => some s1
  | some rate =>
    let accuracy := (k.of_property_read_u32 s1 node "clock-accuracy").getD 0
    let s2 := emit (Event.of_property_read_u32 node "clock-accuracy") s1
    let clk_name := match k.of_property_read_string s2 node "clock-output-names" with
      | some out => some out
      | none => node.name
    let s3 := emit (Event.of_property_read_string node "clock-output-names") s2
    match clk_register_fixed_rate_wen_with_accuracy k none clk_name none 0 rate accuracy
        none none s3 with
    | none => none
    | some (clk, s4) =>
      match clk with
      | ErrPtr.err _ => some s4
      | ErrPtr.ptr c => some (emit (Event.of_clk_add_provider node c) s4)

/-- The state in which `clk_hw_register` is called: after the allocation at
`fixed` and the field assignments. -/
def before_register (k : Host) (dev : Option Nat) (name parent_name : Option String)
    (flags fixed_rate fixed_accuracy : Nat) (en_ptr dis_ptr : Option Nat) (fixed : Nat)
    (s : State) : State :=
  store fixed (filled k dev name parent_name flags fixed_rate fixed_accuracy en_ptr dis_ptr)
    (emit Event.kzalloc s)

/-- The state when `clk_hw_register` has returned: the call is traced and the
handle holds what the framework left in it. -/
def after_register (k : Host) (dev : Option Nat) (name parent_name : Option String)
    (flags fixed_rate fixed_accuracy : Nat) (en_ptr dis_ptr : Option Nat) (fixed : Nat)
    (s : State) : State :=
  let d := filled k dev name parent_name flags fixed_rate fixed_accuracy en_ptr dis_ptr
  let s2 := before_register k dev name parent_name flags fixed_rate fixed_accuracy en_ptr
    dis_ptr fixed s
  store fixed { d with hw := (k.clk_hw_register s2 dev fixed).2 }
    (emit (Event.clk_hw_register dev fixed d) s2)

/-! ## Concrete kernels and inputs -/

/-- The empty state: nothing allocated, nothing called. -/
def s0 : State := { heap := [], trace := [] }

/-- A kernel that allocates at address 4096, accepts every registration
(leaving clk 2 and core 1 in the handle), whose enable hooks return 5, and
whose device tree gives every node a `clock-frequency` of 24 MHz and nothing
else. -/
def host_ok : Host :=
  { ENOMEM := 12
    CLK_IS_BASIC := 32
    kzalloc := fun _ => some 4096
    clk_hw_register := fun _ _ _ => (0, { core := some 1, clk := some 2, init := none })
    enable_cb := fun _ _ _ => 5
    of_property_read_u32 := fun _ _ p => if p = "clock-frequency" then some 24000000 else none
    of_property_read_string := fun _ _ _ => none }

/-- The same kernel when the clock framework refuses the registration with
`-EINVAL`. -/
def host_einval : Host :=
  { host_ok with
    clk_hw_register := fun _ _ _ => (-22, { core := none, clk := none, init := none }) }

/-- The same kernel when it is out of memory. -/
def host_nomem : Host :=
  { host_ok with kzalloc := fun _ => none }

/-- A kernel whose device tree has all three properties, and another one
besides. -/
def host_full : Host :=
  { host_ok with
    of_property_read_u32 := fun _ _ p =>
      if p = "clock-frequency" then some 24000000
      else if p = "clock-accuracy" then some 100 else none
    of_property_read_string := fun _ _ p =>
      if p = "clock-output-names" then some "xtal" else none }

/-- A kernel whose device tree has no `clock-frequency` but has the two other
properties. -/
def host_nofreq : Host :=
  { host_ok with
    of_property_read_u32 := fun _ _ p => if p = "clock-accuracy" then some 100 else none
    of_property_read_string := fun _ _ p =>
      if p = "clock-output-names" then some "xtal" else none }

/-- A device-tree node named `osc`. -/
def osc_node : device_node := { id := 1, name := some "osc" }

/-- A state with one live descriptor at 4096 whose enable hook is the
function at address 3 and whose device is 1. -/
def s_hooked : State :=
  { heap := [(4096, filled host_ok (some 1) (some "osc") none 0 24000000 50 (some 3) none)]
    trace := [] }

end ClkFixedRateWen

namespace SetupFb24bpp

/-! ## The 24bpp framebuffer pin setup -/

/-- Calls into the kernel, as they appear in the trace. -/
inductive Event where
  | s3c_gpio_cfgrange_nopull (start nr cfg : Nat)
  | gpio_request (pin : Nat) (label : String)
  | gpio_direction_output (pin value : Nat)
  | gpio_set_value (pin value : Nat)
  | gpio_free (pin : Nat)
  | printk (level msg : String)
  deriving DecidableEq, Repr

/-- The kernel, as far as this file depends on it.  The pin-numbering macros
`S3C64XX_GPE`, `S3C64XX_GPI`, `S3C64XX_GPJ` and the function-selector macro
`S3C_GPIO_SFN` come from headers that are not at hand.  `gpio_is_valid` is a
pure test on the pin number.  `gpio_request` answers its status and may depend
on the calls made so far. -/
structure Host where
  S3C64XX_GPE : Nat → Nat
  S3C64XX_GPI : Nat → Nat
  S3C64XX_GPJ : Nat → Nat
  S3C_GPIO_SFN : Nat → Nat
  gpio_is_valid : Nat → Bool
  gpio_request : List Event → Nat → String → Int

/-- Source: `s3c64xx_fb_gpio_setup_24bpp`.  Takes the calls made so far and
gives them back extended by the calls of this run. -/
def s3c64xx_fb_gpio_setup_24bpp (k : Host) (t : List Event) : List Event :=
  let t1 := t ++ [Event.s3c_gpio_cfgrange_nopull (k.S3C64XX_GPI 0) 16 (k.S3C_GPIO_SFN 2)]
  let t2 := t1 ++ [Event.s3c_gpio_cfgrange_nopull (k.S3C64XX_GPJ 0) 12 (k.S3C_GPIO_SFN 2)]
  if k.gpio_is_valid (k.S3C64XX_GPE 0) then
    let err := k.gpio_request t2 (k.S3C64XX_GPE 0) "GPE"
    let t3 := t2 ++ [Event.gpio_request (k.S3C64XX_GPE 0) "GPE"]
    if err ≠ 0 then
      t3 ++ [Event.printk "KERN_ERR" "failed to request GPE for lcd reset control\n"]
    else
      let t4 := t3 ++ [Event.gpio_direction_output (k.S3C64XX_GPE 0) 1]
      let t5 := t4 ++ [Event.gpio_set_value (k.S3C64XX_GPE 0) 1]
      t5 ++ [Event.gpio_free (k.S3C64XX_GPE 0)]
  else
    let t5 := t2 ++ [Event.gpio_set_value (k.S3C64XX_GPE 0) 1]
    t5 ++ [Event.gpio_free (k.S3C64XX_GPE 0)]

/-- The calls of one run, without the history it started from. -/
def run (k : Host) (t : List Event) : List Event :=
  (s3c64xx_fb_gpio_setup_24bpp k t).drop t.length

/-- Is the event a `gpio_direction_output`, `gpio_set_value` or `gpio_free`
on the given pin. -/
def drives_or_frees (pin : Nat) : Event → Bool
  | Event.gpio_direction_output p _ => p == pin
  | Event.gpio_set_value p _ => p == pin
  | Event.gpio_free p => p == pin
  | _ => false

/-- Is the event a log message. -/
def is_printk : Event → Bool
  | Event.printk _ _ => true
  | _ => false

/-- The pins that the `s3c_gpio_cfgrange_nopull` calls of a trace configure to
`cfg`: a call covers `nr` consecutive pins from `start`. -/
def configured_pins (cfg : Nat) : List Event → List Nat
  | [] => []
  | Event.s3c_gpio_cfgrange_nopull start nr c :: es =>
    (if c = cfg then List.range' start nr else []) ++ configured_pins cfg es
  | _ :: es => configured_pins cfg es

/-- The levels a trace drives a pin to, in order, through
`gpio_direction_output` and `gpio_set_value`. -/
def levels_driven (pin : Nat) : List Event → List Nat
  | [] => []
  | Event.gpio_direction_output p v :: es =>
    (if p = pin then [v] else []) ++ levels_driven pin es
  | Event.gpio_set_value p v :: es =>
    (if p = pin then [v] else []) ++ levels_driven pin es
  | _ :: es => levels_driven pin es

/-- The pin numbering of the S3C6410 with no spacing between banks, and a
kernel in which every pin below 188 is valid and the pin request succeeds. -/
def s3c6410 : Host :=
  { S3C64XX_GPE := fun n => 32 + n
    S3C64XX_GPI := fun n => 74 + n
    S3C64XX_GPJ := fun n => 91 + n
    S3C_GPIO_SFN := fun x => 0xfffffff0 ||| x
    gpio_is_valid := fun n => decide (n < 188)
    gpio_request := fun _ _ _ => 0 }

/-- The same board when the reset pin is already taken: the request fails
with `-EBUSY`. -/
def s3c6410_busy : Host :=
  { s3c6410 with gpio_request := fun _ _ _ => -16 }

end SetupFb24bpp

namespace ClkFixedRateWen

/-! ## Auxiliary facts about the state -/

theorem lookup_filter_self (p : Nat) (h : List (Nat × clk_fixed_rate_wen)) :
    (h.filter (fun q => q.1 != p)).lookup p = none := by
  induction h with
  | nil => rfl
  | cons x xs ih =>
    by_cases hx : x.1 = p
    · simp [List.filter_cons, hx, ih]
    · have hne : (p == x.1) = false := by
        simp only [beq_eq_false_iff_ne, ne_eq]
        exact fun e => hx e.symm
      obtain ⟨a, b⟩ := x
      simp only [List.filter_cons, bne_iff_ne, ne_eq, hx, not_false_eq_true, decide_True,
        ite_true, List.lookup_cons]
      simp only at hne
      rw [hne]
      exact ih

theorem to_clk_store (p : Nat) (d : clk_fixed_rate_wen) (s : State) :
    to_clk_fixed_rate_wen (store p d s) p = some d := by
  simp [to_clk_fixed_rate_wen, store, List.lookup_cons]

theorem to_clk_kfree (p : Nat) (s : State) :
    to_clk_fixed_rate_wen (kfree p s) p = none := by
  simp [to_clk_fixed_rate_wen, kfree, emit, lookup_filter_self]

theorem register_alloc_failed (k : Host) (dev : Option Nat) (name parent_name : Option String)
    (flags fixed_rate fixed_accuracy : Nat) (en_ptr dis_ptr : Option Nat) (s : State)
    (h : k.kzalloc s = none) :
    clk_hw_register_fixed_rate_wen_with_accuracy k dev name parent_name flags fixed_rate
      fixed_accuracy en_ptr dis_ptr s = (ERR_PTR (-(k.ENOMEM : Int)), emit Event.kzalloc s) := by
  simp [clk_hw_register_fixed_rate_wen_with_accuracy, h]

theorem register_refused (k : Host) (dev : Option Nat) (name parent_name : Option String)
    (flags fixed_rate fixed_accuracy : Nat) (en_ptr dis_ptr : Option Nat) (s : State)
    (fixed : Nat) (h : k.kzalloc s = some fixed)
    (hret : (k.clk_hw_register (before_register k dev name parent_name flags fixed_rate
      fixed_accuracy en_ptr dis_ptr fixed s) dev fixed).1 ≠ 0) :
    clk_hw_register_fixed_rate_wen_with_accuracy k dev name parent_name flags fixed_rate
      fixed_accuracy en_ptr dis_ptr s =
      (ERR_PTR (k.clk_hw_register (before_register k dev name parent_name flags fixed_rate
        fixed_accuracy en_ptr dis_ptr fixed s) dev fixed).1,
       kfree fixed (after_register k dev name parent_name flags fixed_rate fixed_accuracy
        en_ptr dis_ptr fixed s)) := by
  simp only [before_register] at hret
  simp [clk_hw_register_fixed_rate_wen_with_accuracy, h, hret, before_register, after_register]

theorem register_accepted (k : Host) (dev : Option Nat) (name parent_name : Option String)
    (flags fixed_rate fixed_accuracy : Nat) (en_ptr dis_ptr : Option Nat) (s : State)
    (fixed : Nat) (h : k.kzalloc s = some fixed)
    (hret : (k.clk_hw_register (before_register k dev name parent_name flags fixed_rate
      fixed_accuracy en_ptr dis_ptr fixed s) dev fixed).1 = 0) :
    clk_hw_register_fixed_rate_wen_with_accuracy k dev name parent_name flags fixed_rate
      fixed_accuracy en_ptr dis_ptr s =
      (ErrPtr.ptr fixed, after_register k dev name parent_name flags fixed_rate fixed_accuracy
        en_ptr dis_ptr fixed s) := by
  simp only [before_register] at hret
  simp [clk_hw_register_fixed_rate_wen_with_accuracy, h, hret, before_register, after_register]

theorem to_clk_after_register (k : Host) (dev : Option Nat) (name parent_name : Option String)
    (flags fixed_rate fixed_accuracy : Nat) (en_ptr dis_ptr : Option Nat) (s : State)
    (fixed : Nat) :
    to_clk_fixed_rate_wen (after_register k dev name parent_name flags fixed_rate
      fixed_accuracy en_ptr dis_ptr fixed s) fixed =
      some { filled k dev name parent_name flags fixed_rate fixed_accuracy en_ptr dis_ptr with
        hw := (k.clk_hw_register (before_register k dev name parent_name flags fixed_rate
          fixed_accuracy en_ptr dis_ptr fixed s) dev fixed).2 } := by
  simp [after_register, to_clk_store]

theorem after_register_trace (k : Host) (dev : Option Nat) (name parent_name : Option String)
    (flags fixed_rate fixed_accuracy : Nat) (en_ptr dis_ptr : Option Nat) (s : State)
    (fixed : Nat) :
    (after_register k dev name parent_name flags fixed_rate fixed_accuracy en_ptr dis_ptr
      fixed s).trace = s.trace ++ [Event.kzalloc, Event.clk_hw_register dev fixed
        (filled k dev name parent_name flags fixed_rate fixed_accuracy en_ptr dis_ptr)] := by
  simp [after_register, before_register, store, emit]

end ClkFixedRateWen

namespace ClkFixedRateWen

/-! ## The rate and the accuracy are the registered ones -/

/-- C1: when `clk_hw_register_fixed_rate_wen_with_accuracy` called with
`fixed_rate` and `fixed_accuracy` returns a handle that is not an error
pointer, `clk_fixed_rate_wen_recalc_rate` on that handle gives `fixed_rate`
for every parent rate and `clk_fixed_rate_wen_recalc_accuracy` gives
`fixed_accuracy` for every parent accuracy. -/
theorem registered_rate_is_fixed (k : Host) (dev : Option Nat)
    (name parent_name : Option String) (flags fixed_rate fixed_accuracy : Nat)
    (en_ptr dis_ptr : Option Nat) (s : State) (hw : Nat) (s' : State)
    (h : clk_hw_register_fixed_rate_wen_with_accuracy k dev name parent_name flags fixed_rate
      fixed_accuracy en_ptr dis_ptr s = (ErrPtr.ptr hw, s')) :
    (∀ parent_rate, clk_fixed_rate_wen_recalc_rate s' hw parent_rate = some fixed_rate) ∧
    (∀ parent_accuracy,
      clk_fixed_rate_wen_recalc_accuracy s' hw parent_accuracy = some fixed_accuracy) := by
  cases hk : k.kzalloc s with
  | none =>
    rw [register_alloc_failed k dev name parent_name flags fixed_rate fixed_accuracy en_ptr
      dis_ptr s hk] at h
    simp [ERR_PTR] at h
  | some fixed =>
    by_cases hret : (k.clk_hw_register (before_register k dev name parent_name flags fixed_rate
        fixed_accuracy en_ptr dis_ptr fixed s) dev fixed).1 = 0
    · rw [register_accepted k dev name parent_name flags fixed_rate fixed_accuracy en_ptr
        dis_ptr s fixed hk hret] at h
      simp only [Prod.mk.injEq, ErrPtr.ptr.injEq] at h
      obtain ⟨h1, h2⟩ := h
      subst h1
      subst h2
      simp [clk_fixed_rate_wen_recalc_rate, clk_fixed_rate_wen_recalc_accuracy,
        to_clk_after_register, filled]
    · rw [register_refused k dev name parent_name flags fixed_rate fixed_accuracy en_ptr
        dis_ptr s fixed hk hret] at h
      simp [ERR_PTR] at h

/-- Witness for C1: on the accepting kernel a 24 MHz clock of accuracy 50 is
registered at 4096 and reports that rate and accuracy. -/
theorem registered_rate_is_fixed_witness :
    (clk_hw_register_fixed_rate_wen_with_accuracy host_ok (some 1) (some "osc") none 0
      24000000 50 (some 3) none s0).1 = ErrPtr.ptr 4096 ∧
    clk_fixed_rate_wen_recalc_rate
      (clk_hw_register_fixed_rate_wen_with_accuracy host_ok (some 1) (some "osc") none 0
        24000000 50 (some 3) none s0).2 4096 999 = some 24000000 ∧
    clk_fixed_rate_wen_recalc_accuracy
      (clk_hw_register_fixed_rate_wen_with_accuracy host_ok (some 1) (some "osc") none 0
        24000000 50 (some 3) none s0).2 4096 7 = some 50 :=
  have h := registered_rate_is_fixed host_ok (some 1) (some "osc") none 0 24000000 50 (some 3)
    none s0 4096 _ rfl
  ⟨rfl, h.1 999, h.2 7⟩

end ClkFixedRateWen

namespace ClkFixedRateWen

/-! ## The enable hook -/

/-- C2: the enable callback is optional.  For every live descriptor,
`clk_fixed_rate_wen_enable` returns 0 and calls nothing when the stored enable
pointer is `NULL`; otherwise it makes exactly one call, of the stored enable
pointer on the stored device, and returns the result of that call unchanged. -/
theorem enable_is_optional (k : Host) (hw : Nat) (s : State) (fixed : clk_fixed_rate_wen)
    (h : to_clk_fixed_rate_wen s hw = some fixed) :
    (fixed.enable = none → clk_fixed_rate_wen_enable k hw s = some (0, s)) ∧
    (∀ fn, fixed.enable = some fn →
      clk_fixed_rate_wen_enable k hw s =
        some (k.enable_cb s fn fixed.dev,
          { heap := s.heap, trace := s.trace ++ [Event.call_enable fn fixed.dev] })) := by
  constructor
  · intro hn
    simp [clk_fixed_rate_wen_enable, h, hn]
  · intro fn hf
    simp [clk_fixed_rate_wen_enable, h, hf, emit]

/-- Witness for C2: on a descriptor whose enable hook is function 3 and whose
device is 1, the hook is called once on device 1 and its result 5 is
returned. -/
theorem enable_is_optional_witness :
    clk_fixed_rate_wen_enable host_ok 4096 s_hooked =
      some (5, { heap := s_hooked.heap, trace := [Event.call_enable 3 (some 1)] }) :=
  (enable_is_optional host_ok 4096 s_hooked
    (filled host_ok (some 1) (some "osc") none 0 24000000 50 (some 3) none) rfl).2 3 rfl

/-! ## The wrappers -/

/-- C3: `clk_hw_register_fixed_rate_wen` has the result and the effects of
`clk_hw_register_fixed_rate_wen_with_accuracy` with `fixed_accuracy = 0`, and
`clk_register_fixed_rate_wen` those of
`clk_register_fixed_rate_wen_with_accuracy` with `fixed_accuracy = 0`, for
every input, kernel and starting state. -/
theorem wrappers_default_accuracy (k : Host) (dev : Option Nat)
    (name parent_name : Option String) (flags fixed_rate : Nat)
    (en_ptr dis_ptr : Option Nat) (s : State) :
    clk_hw_register_fixed_rate_wen k dev name parent_name flags fixed_rate en_ptr dis_ptr s =
      clk_hw_register_fixed_rate_wen_with_accuracy k dev name parent_name flags fixed_rate 0
        en_ptr dis_ptr s ∧
    clk_register_fixed_rate_wen k dev name parent_name flags fixed_rate en_ptr dis_ptr s =
      clk_register_fixed_rate_wen_with_accuracy k dev name parent_name flags fixed_rate 0
        en_ptr dis_ptr s :=
  ⟨rfl, rfl⟩

/-! ## Errors of registration -/

/-- C4, counterexample: on a kernel whose allocation succeeds and whose
`clk_hw_register` returns `-EINVAL`, the registration returns an error
pointer although the allocation did not fail, and the code carried is -22, not
`-ENOMEM`. -/
theorem register_error_not_only_alloc :
    ¬ (IS_ERR (clk_hw_register_fixed_rate_wen_with_accuracy host_einval none (some "osc")
          none 0 24000000 0 none none s0).1 = true →
        host_einval.kzalloc s0 = none ∧
        (clk_hw_register_fixed_rate_wen_with_accuracy host_einval none (some "osc")
          none 0 24000000 0 none none s0).1 = ERR_PTR (-(host_einval.ENOMEM : Int))) := by
  intro h
  have h1 := (h rfl).1
  simp [host_einval, host_ok] at h1

/-- C4, amended: if `clk_hw_register_fixed_rate_wen_with_accuracy` returns an
error pointer then either the descriptor allocation failed and the code is
`-ENOMEM`, or the allocation succeeded, `clk_hw_register` returned a nonzero
status, and the code is that status. -/
theorem register_error_causes (k : Host) (dev : Option Nat)
    (name parent_name : Option String) (flags fixed_rate fixed_accuracy : Nat)
    (en_ptr dis_ptr : Option Nat) (s : State)
    (h : IS_ERR (clk_hw_register_fixed_rate_wen_with_accuracy k dev name parent_name flags
      fixed_rate fixed_accuracy en_ptr dis_ptr s).1 = true) :
    (k.kzalloc s = none ∧
      (clk_hw_register_fixed_rate_wen_with_accuracy k dev name parent_name flags
        fixed_rate fixed_accuracy en_ptr dis_ptr s).1 = ERR_PTR (-(k.ENOMEM : Int))) ∨
    (∃ fixed, k.kzalloc s = some fixed ∧
      (k.clk_hw_register (before_register k dev name parent_name flags fixed_rate
        fixed_accuracy en_ptr dis_ptr fixed s) dev fixed).1 ≠ 0 ∧
      (clk_hw_register_fixed_rate_wen_with_accuracy k dev name parent_name flags
        fixed_rate fixed_accuracy en_ptr dis_ptr s).1 =
        ERR_PTR (k.clk_hw_register (before_register k dev name parent_name flags fixed_rate
          fixed_accuracy en_ptr dis_ptr fixed s) dev fixed).1) := by
  cases hk : k.kzalloc s with
  | none =>
    left
    rw [register_alloc_failed k dev name parent_name flags fixed_rate fixed_accuracy en_ptr
      dis_ptr s hk]
    exact ⟨rfl, rfl⟩
  | some fixed =>
    right
    by_cases hret : (k.clk_hw_register (before_register k dev name parent_name flags fixed_rate
        fixed_accuracy en_ptr dis_ptr fixed s) dev fixed).1 = 0
    · rw [register_accepted k dev name parent_name flags fixed_rate fixed_accuracy en_ptr
        dis_ptr s fixed hk hret] at h
      simp [IS_ERR] at h
    · refine ⟨fixed, rfl, hret, ?_⟩
      rw [register_refused k dev name parent_name flags fixed_rate fixed_accuracy en_ptr
        dis_ptr s fixed hk hret]

/-- Witness for C4, amended: on the kernel that refuses the registration with
`-EINVAL` the second cause applies, with the allocation at 4096. -/
theorem register_error_causes_witness :
    IS_ERR (clk_hw_register_fixed_rate_wen_with_accuracy host_einval none (some "osc")
      none 0 24000000 0 none none s0).1 = true ∧
    ((host_einval.kzalloc s0 = none ∧
      (clk_hw_register_fixed_rate_wen_with_accuracy host_einval none (some "osc")
        none 0 24000000 0 none none s0).1 = ERR_PTR (-(host_einval.ENOMEM : Int))) ∨
    (∃ fixed, host_einval.kzalloc s0 = some fixed ∧
      (host_einval.clk_hw_register (before_register host_einval none (some "osc") none 0
        24000000 0 none none fixed s0) none fixed).1 ≠ 0 ∧
      (clk_hw_register_fixed_rate_wen_with_accuracy host_einval none (some "osc")
        none 0 24000000 0 none none s0).1 =
        ERR_PTR (host_einval.clk_hw_register (before_register host_einval none (some "osc")
          none 0 24000000 0 none none fixed s0) none fixed).1)) :=
  ⟨rfl, register_error_causes host_einval none (some "osc") none 0 24000000 0 none none s0 rfl⟩

end ClkFixedRateWen

namespace ClkFixedRateWen

theorem or_and_self_right (a b : Nat) : (a ||| b) &&& b = b := by
  apply Nat.eq_of_testBit_eq
  intro i
  simp only [Nat.testBit_and, Nat.testBit_or]
  cases a.testBit i <;> cases b.testBit i <;> rfl

theorem or_and_self_left (a b : Nat) : (a ||| b) &&& a = a := by
  apply Nat.eq_of_testBit_eq
  intro i
  simp only [Nat.testBit_and, Nat.testBit_or]
  cases a.testBit i <;> cases b.testBit i <;> rfl

/-- C5: registration has no partial-failure state.
`clk_hw_register_fixed_rate_wen_with_accuracy` returns a handle that is not an
error pointer exactly when the allocation succeeded and `clk_hw_register`
returned 0, and then the calls made are the allocation and the registration
only and the descriptor is live.  When the allocation fails it returns
`ERR_PTR(-ENOMEM)` and the allocation is the only call made.  When
`clk_hw_register` returns a nonzero status it returns `ERR_PTR` of exactly that
status, the calls made are the allocation, the registration and one `kfree` of
the descriptor, and the descriptor is gone.
`clk_register_fixed_rate_wen_with_accuracy` returns, with the same effects, the
same error code when the handle is an error pointer, and the `clk` field of
the handle otherwise. -/
theorem register_no_partial_failure (k : Host) (dev : Option Nat)
    (name parent_name : Option String) (flags fixed_rate fixed_accuracy : Nat)
    (en_ptr dis_ptr : Option Nat) (s : State) :
    (IS_ERR (clk_hw_register_fixed_rate_wen_with_accuracy k dev name parent_name flags
        fixed_rate fixed_accuracy en_ptr dis_ptr s).1 = false ↔
      ∃ fixed, k.kzalloc s = some fixed ∧
        (k.clk_hw_register (before_register k dev name parent_name flags fixed_rate
          fixed_accuracy en_ptr dis_ptr fixed s) dev fixed).1 = 0) ∧
    (k.kzalloc s = none →
      clk_hw_register_fixed_rate_wen_with_accuracy k dev name parent_name flags
        fixed_rate fixed_accuracy en_ptr dis_ptr s =
        (ERR_PTR (-(k.ENOMEM : Int)),
          { heap := s.heap, trace := s.trace ++ [Event.kzalloc] })) ∧
    (∀ fixed, k.kzalloc s = some fixed →
      (k.clk_hw_register (before_register k dev name parent_name flags fixed_rate
          fixed_accuracy en_ptr dis_ptr fixed s) dev fixed).1 ≠ 0 →
      (clk_hw_register_fixed_rate_wen_with_accuracy k dev name parent_name flags
        fixed_rate fixed_accuracy en_ptr dis_ptr s).1 =
        ERR_PTR (k.clk_hw_register (before_register k dev name parent_name flags fixed_rate
          fixed_accuracy en_ptr dis_ptr fixed s) dev fixed).1 ∧
      (clk_hw_register_fixed_rate_wen_with_accuracy k dev name parent_name flags
        fixed_rate fixed_accuracy en_ptr dis_ptr s).2.trace =
        s.trace ++ [Event.kzalloc,
          Event.clk_hw_register dev fixed
            (filled k dev name parent_name flags fixed_rate fixed_accuracy en_ptr dis_ptr),
          Event.kfree fixed] ∧
      to_clk_fixed_rate_wen (clk_hw_register_fixed_rate_wen_with_accuracy k dev name
        parent_name flags fixed_rate fixed_accuracy en_ptr dis_ptr s).2 fixed = none) ∧
    (∀ fixed, k.kzalloc s = some fixed →
      (k.clk_hw_register (before_register k dev name parent_name flags fixed_rate
          fixed_accuracy en_ptr dis_ptr fixed s) dev fixed).1 = 0 →
      (clk_hw_register_fixed_rate_wen_with_accuracy k dev name parent_name flags
        fixed_rate fixed_accuracy en_ptr dis_ptr s).1 = ErrPtr.ptr fixed ∧
      (clk_hw_register_fixed_rate_wen_with_accuracy k dev name parent_name flags
        fixed_rate fixed_accuracy en_ptr dis_ptr s).2.trace =
        s.trace ++ [Event.kzalloc,
          Event.clk_hw_register dev fixed
            (filled k dev name parent_name flags fixed_rate fixed_accuracy en_ptr dis_ptr)] ∧
      (to_clk_fixed_rate_wen (clk_hw_register_fixed_rate_wen_with_accuracy k dev name
        parent_name flags fixed_rate fixed_accuracy en_ptr dis_ptr s).2 fixed).isSome = true) ∧
    (∀ c, (clk_hw_register_fixed_rate_wen_with_accuracy k dev name parent_name flags
        fixed_rate fixed_accuracy en_ptr dis_ptr s).1 = ErrPtr.err c →
      clk_register_fixed_rate_wen_with_accuracy k dev name parent_name flags
        fixed_rate fixed_accuracy en_ptr dis_ptr s =
        some (ErrPtr.err c, (clk_hw_register_fixed_rate_wen_with_accuracy k dev name
          parent_name flags fixed_rate fixed_accuracy en_ptr dis_ptr s).2)) ∧
    (∀ hw, (clk_hw_register_fixed_rate_wen_with_accuracy k dev name parent_name flags
        fixed_rate fixed_accuracy en_ptr dis_ptr s).1 = ErrPtr.ptr hw →
      ∃ d, to_clk_fixed_rate_wen (clk_hw_register_fixed_rate_wen_with_accuracy k dev name
          parent_name flags fixed_rate fixed_accuracy en_ptr dis_ptr s).2 hw = some d ∧
        clk_register_fixed_rate_wen_with_accuracy k dev name parent_name flags
          fixed_rate fixed_accuracy en_ptr dis_ptr s =
          some (ErrPtr.ptr d.hw.clk, (clk_hw_register_fixed_rate_wen_with_accuracy k dev
            name parent_name flags fixed_rate fixed_accuracy en_ptr dis_ptr s).2)) := by
  refine ⟨?_, ?_, ?_, ?_, ?_, ?_⟩
  · cases hk : k.kzalloc s with
    | none =>
      rw [register_alloc_failed k dev name parent_name flags fixed_rate fixed_accuracy en_ptr
        dis_ptr s hk]
      simp [IS_ERR, ERR_PTR]
    | some fixed =>
      by_cases hret : (k.clk_hw_register (before_register k dev name parent_name flags
          fixed_rate fixed_accuracy en_ptr dis_ptr fixed s) dev fixed).1 = 0
      · rw [register_accepted k dev name parent_name flags fixed_rate fixed_accuracy en_ptr
          dis_ptr s fixed hk hret]
        simp [IS_ERR, hret]
      · rw [register_refused k dev name parent_name flags fixed_rate fixed_accuracy en_ptr
          dis_ptr s fixed hk hret]
        simp [IS_ERR, ERR_PTR, hret]
  · intro hk
    rw [register_alloc_failed k dev name parent_name flags fixed_rate fixed_accuracy en_ptr
      dis_ptr s hk]
    rfl
  · intro fixed hk hret
    rw [register_refused k dev name parent_name flags fixed_rate fixed_accuracy en_ptr
      dis_ptr s fixed hk hret]
    refine ⟨rfl, ?_, to_clk_kfree _ _⟩
    simp [kfree, emit, after_register_trace]
  · intro fixed hk hret
    rw [register_accepted k dev name parent_name flags fixed_rate fixed_accuracy en_ptr
      dis_ptr s fixed hk hret]
    refine ⟨rfl, after_register_trace _ _ _ _ _ _ _ _ _ _ _, ?_⟩
    simp [to_clk_after_register]
  · intro c hc
    simp [clk_register_fixed_rate_wen_with_accuracy, hc]
  · intro hw hhw
    cases hk : k.kzalloc s with
    | none =>
      rw [register_alloc_failed k dev name parent_name flags fixed_rate fixed_accuracy en_ptr
        dis_ptr s hk] at hhw
      simp [ERR_PTR] at hhw
    | some fixed =>
      by_cases hret : (k.clk_hw_register (before_register k dev name parent_name flags
          fixed_rate fixed_accuracy en_ptr dis_ptr fixed s) dev fixed).1 = 0
      · have hacc := register_accepted k dev name parent_name flags fixed_rate fixed_accuracy
          en_ptr dis_ptr s fixed hk hret
        rw [hacc] at hhw
        simp only [ErrPtr.ptr.injEq] at hhw
        subst hhw
        refine ⟨{ filled k dev name parent_name flags fixed_rate fixed_accuracy en_ptr
          dis_ptr with hw := (k.clk_hw_register (before_register k dev name parent_name flags
            fixed_rate fixed_accuracy en_ptr dis_ptr fixed s) dev fixed).2 }, ?_, ?_⟩
        · rw [hacc]
          exact to_clk_after_register _ _ _ _ _ _ _ _ _ _ _
        · simp [clk_register_fixed_rate_wen_with_accuracy, hacc, to_clk_after_register]
      · rw [register_refused k dev name parent_name flags fixed_rate fixed_accuracy en_ptr
          dis_ptr s fixed hk hret] at hhw
        simp [ERR_PTR] at hhw

/-- C10: when the allocation succeeds at `fixed`, the trace of
`clk_hw_register_fixed_rate_wen_with_accuracy` continues with the allocation
and then a `clk_hw_register` call on the descriptor at `fixed`, followed by
nothing or by the `kfree` of the descriptor.  The init data of the descriptor
at that call has ops `clk_fixed_rate_wen_ops`, the given name, and the given
flags or-ed with `CLK_IS_BASIC` (so `CLK_IS_BASIC` is set and every given flag
bit is kept); it has one parent, `parent_name`, when `parent_name` is not
`NULL`, and zero parents and `NULL` parent names otherwise.  The fields `dev`,
`enable`, `disable`, `fixed_rate` and `fixed_accuracy` of the descriptor are
the corresponding arguments. -/
theorem register_init_data (k : Host) (dev : Option Nat)
    (name parent_name : Option String) (flags fixed_rate fixed_accuracy : Nat)
    (en_ptr dis_ptr : Option Nat) (s : State) (fixed : Nat)
    (h : k.kzalloc s = some fixed) :
    ∃ d init rest,
      (clk_hw_register_fixed_rate_wen_with_accuracy k dev name parent_name flags
        fixed_rate fixed_accuracy en_ptr dis_ptr s).2.trace =
        s.trace ++ Event.kzalloc :: Event.clk_hw_register dev fixed d :: rest ∧
      (rest = [] ∨ rest = [Event.kfree fixed]) ∧
      d.hw.init = some init ∧
      init.ops = clk_ops_ref.clk_fixed_rate_wen_ops ∧
      init.name = name ∧
      init.flags = flags ||| k.CLK_IS_BASIC ∧
      init.flags &&& k.CLK_IS_BASIC = k.CLK_IS_BASIC ∧
      init.flags &&& flags = flags ∧
      (∀ p, parent_name = some p → init.num_parents = 1 ∧ init.parent_names = some [p]) ∧
      (parent_name = none → init.num_parents = 0 ∧ init.parent_names = none) ∧
      d.dev = dev ∧ d.enable = en_ptr ∧ d.disable = dis_ptr ∧
      d.fixed_rate = fixed_rate ∧ d.fixed_accuracy = fixed_accuracy := by
  refine ⟨filled k dev name parent_name flags fixed_rate fixed_accuracy en_ptr dis_ptr,
    init_data k name parent_name flags,
    if (k.clk_hw_register (before_register k dev name parent_name flags fixed_rate
      fixed_accuracy en_ptr dis_ptr fixed s) dev fixed).1 = 0 then [] else [Event.kfree fixed],
    ?_, ?_, rfl, rfl, rfl, rfl, or_and_self_right _ _, or_and_self_left _ _, ?_, ?_,
    rfl, rfl, rfl, rfl, rfl⟩
  · by_cases hret : (k.clk_hw_register (before_register k dev name parent_name flags
        fixed_rate fixed_accuracy en_ptr dis_ptr fixed s) dev fixed).1 = 0
    · rw [register_accepted k dev name parent_name flags fixed_rate fixed_accuracy en_ptr
        dis_ptr s fixed h hret]
      simp [hret, after_register_trace]
    · rw [register_refused k dev name parent_name flags fixed_rate fixed_accuracy en_ptr
        dis_ptr s fixed h hret]
      simp [hret, kfree, emit, after_register_trace]
  · by_cases hret : (k.clk_hw_register (before_register k dev name parent_name flags
        fixed_rate fixed_accuracy en_ptr dis_ptr fixed s) dev fixed).1 = 0
    · simp [hret]
    · simp [hret]
  · intro p hp
    subst hp
    exact ⟨rfl, rfl⟩
  · intro hp
    subst hp
    exact ⟨rfl, rfl⟩

/-- Witness for C10: on the accepting kernel, which allocates at 4096, the
statement holds for a clock named `osc` with parent `xtal` and flags 5. -/
theorem register_init_data_witness :
    host_ok.kzalloc s0 = some 4096 ∧
    ∃ d init rest,
      (clk_hw_register_fixed_rate_wen_with_accuracy host_ok (some 1) (some "osc")
        (some "xtal") 5 24000000 50 (some 3) none s0).2.trace =
        s0.trace ++ Event.kzalloc :: Event.clk_hw_register (some 1) 4096 d :: rest ∧
      (rest = [] ∨ rest = [Event.kfree 4096]) ∧
      d.hw.init = some init ∧
      init.ops = clk_ops_ref.clk_fixed_rate_wen_ops ∧
      init.name = some "osc" ∧
      init.flags = 5 ||| host_ok.CLK_IS_BASIC ∧
      init.flags &&& host_ok.CLK_IS_BASIC = host_ok.CLK_IS_BASIC ∧
      init.flags &&& 5 = 5 ∧
      (∀ p, some "xtal" = some p → init.num_parents = 1 ∧ init.parent_names = some [p]) ∧
      ((some "xtal" : Option String) = none →
        init.num_parents = 0 ∧ init.parent_names = none) ∧
      d.dev = some 1 ∧ d.enable = some 3 ∧ d.disable = none ∧
      d.fixed_rate = 24000000 ∧ d.fixed_accuracy = 50 :=
  ⟨rfl, register_init_data host_ok (some 1) (some "osc") (some "xtal") 5 24000000 50 (some 3)
    none s0 4096 rfl⟩

end ClkFixedRateWen

namespace ClkFixedRateWen

/-! ## Setup from the device tree -/

theorem clk_register_total (k : Host) (dev : Option Nat)
    (name parent_name : Option String) (flags fixed_rate fixed_accuracy : Nat)
    (en_ptr dis_ptr : Option Nat) (s : State) :
    ∃ clk, clk_register_fixed_rate_wen_with_accuracy k dev name parent_name flags fixed_rate
        fixed_accuracy en_ptr dis_ptr s =
        some (clk, (clk_hw_register_fixed_rate_wen_with_accuracy k dev name parent_name flags
          fixed_rate fixed_accuracy en_ptr dis_ptr s).2) ∧
      IS_ERR clk = IS_ERR (clk_hw_register_fixed_rate_wen_with_accuracy k dev name parent_name
        flags fixed_rate fixed_accuracy en_ptr dis_ptr s).1 := by
  cases hk : k.kzalloc s with
  | none =>
    have hf := register_alloc_failed k dev name parent_name flags fixed_rate fixed_accuracy
      en_ptr dis_ptr s hk
    refine ⟨ErrPtr.err (-(k.ENOMEM : Int)), ?_, ?_⟩
    · simp [clk_register_fixed_rate_wen_with_accuracy, hf, ERR_PTR]
    · rw [hf]
      rfl
  | some fixed =>
    by_cases hret : (k.clk_hw_register (before_register k dev name parent_name flags
        fixed_rate fixed_accuracy en_ptr dis_ptr fixed s) dev fixed).1 = 0
    · have hf := register_accepted k dev name parent_name flags fixed_rate fixed_accuracy
        en_ptr dis_ptr s fixed hk hret
      refine ⟨ErrPtr.ptr (k.clk_hw_register (before_register k dev name parent_name flags
        fixed_rate fixed_accuracy en_ptr dis_ptr fixed s) dev fixed).2.clk, ?_, ?_⟩
      · simp [clk_register_fixed_rate_wen_with_accuracy, hf, to_clk_after_register]
      · rw [hf]
        rfl
    · have hf := register_refused k dev name parent_name flags fixed_rate fixed_accuracy
        en_ptr dis_ptr s fixed hk hret
      refine ⟨ErrPtr.err (k.clk_hw_register (before_register k dev name parent_name flags
        fixed_rate fixed_accuracy en_ptr dis_ptr fixed s) dev fixed).1, ?_, ?_⟩
      · simp [clk_register_fixed_rate_wen_with_accuracy, hf, ERR_PTR]
      · rw [hf]
        rfl

theorem register_trace (k : Host) (dev : Option Nat)
    (name parent_name : Option String) (flags fixed_rate fixed_accuracy : Nat)
    (en_ptr dis_ptr : Option Nat) (s : State) :
    ∃ rest, (clk_hw_register_fixed_rate_wen_with_accuracy k dev name parent_name flags
        fixed_rate fixed_accuracy en_ptr dis_ptr s).2.trace = s.trace ++ Event.kzalloc :: rest ∧
      (rest = [] ∨ ∃ hw,
        rest = [Event.clk_hw_register dev hw
          (filled k dev name parent_name flags fixed_rate fixed_accuracy en_ptr dis_ptr)] ∨
        rest = [Event.clk_hw_register dev hw
          (filled k dev name parent_name flags fixed_rate fixed_accuracy en_ptr dis_ptr),
          Event.kfree hw]) := by
  cases hk : k.kzalloc s with
  | none =>
    refine ⟨[], ?_, Or.inl rfl⟩
    rw [register_alloc_failed k dev name parent_name flags fixed_rate fixed_accuracy
      en_ptr dis_ptr s hk]
    rfl
  | some fixed =>
    by_cases hret : (k.clk_hw_register (before_register k dev name parent_name flags
        fixed_rate fixed_accuracy en_ptr dis_ptr fixed s) dev fixed).1 = 0
    · refine ⟨_, ?_, Or.inr ⟨fixed, Or.inl rfl⟩⟩
      rw [register_accepted k dev name parent_name flags fixed_rate fixed_accuracy
        en_ptr dis_ptr s fixed hk hret]
      simp [after_register_trace]
    · refine ⟨_, ?_, Or.inr ⟨fixed, Or.inr rfl⟩⟩
      rw [register_refused k dev name parent_name flags fixed_rate fixed_accuracy
        en_ptr dis_ptr s fixed hk hret]
      simp [kfree, emit, after_register_trace]

theorem register_call_traced (k : Host) (dev : Option Nat)
    (name parent_name : Option String) (flags fixed_rate fixed_accuracy : Nat)
    (en_ptr dis_ptr : Option Nat) (s : State) (fixed : Nat) (hk : k.kzalloc s = some fixed) :
    Event.clk_hw_register dev fixed
        (filled k dev name parent_name flags fixed_rate fixed_accuracy en_ptr dis_ptr) ∈
      (clk_hw_register_fixed_rate_wen_with_accuracy k dev name parent_name flags
        fixed_rate fixed_accuracy en_ptr dis_ptr s).2.trace := by
  by_cases hret : (k.clk_hw_register (before_register k dev name parent_name flags
      fixed_rate fixed_accuracy en_ptr dis_ptr fixed s) dev fixed).1 = 0
  · rw [register_accepted k dev name parent_name flags fixed_rate fixed_accuracy
      en_ptr dis_ptr s fixed hk hret]
    simp [after_register_trace]
  · rw [register_refused k dev name parent_name flags fixed_rate fixed_accuracy
      en_ptr dis_ptr s fixed hk hret]
    simp [kfree, emit, after_register_trace]

theorem setup_unfold (k : Host) (node : device_node) (s : State) (f : Nat)
    (h : k.of_property_read_u32 s node "clock-frequency" = some f) :
    of_fixed_clk_setup_wen k node s =
      match clk_register_fixed_rate_wen_with_accuracy k none
          (match k.of_property_read_string
              (emit (Event.of_property_read_u32 node "clock-accuracy")
                (emit (Event.of_property_read_u32 node "clock-frequency") s))
              node "clock-output-names" with
            | some out => some out
            | none => node.name)
          none 0 f
          ((k.of_property_read_u32 (emit (Event.of_property_read_u32 node "clock-frequency") s)
            node "clock-accuracy").getD 0)
          none none
          (emit (Event.of_property_read_string node "clock-output-names")
            (emit (Event.of_property_read_u32 node "clock-accuracy")
              (emit (Event.of_property_read_u32 node "clock-frequency") s))) with
      | none => none
      | some (clk, s4) =>
        match clk with
        | ErrPtr.err _ => some s4
        | ErrPtr.ptr c => some (emit (Event.of_clk_add_provider node c) s4) := by
  simp only [of_fixed_clk_setup_wen, h]

end ClkFixedRateWen

namespace ClkFixedRateWen

theorem emit_three (a b c : Event) (s : State) :
    emit c (emit b (emit a s)) = { heap := s.heap, trace := s.trace ++ [a, b, c] } := by
  simp [emit]

/-- C7: `of_fixed_clk_setup_wen` requires `clock-frequency`.  If reading it
fails, the read is the only call made and the state is otherwise unchanged:
nothing is allocated or registered, no provider is added, no other property is
read.  If it succeeds with value `f`, the two other properties are read, then
`clk_register_fixed_rate_wen_with_accuracy` runs once with `fixed_rate = f`
(one allocation, at most one `clk_hw_register` call, on a descriptor of rate
`f`), and `of_clk_add_provider` is called for the node, after that, exactly
when the pointer returned is not an error pointer. -/
theorem setup_requires_frequency (k : Host) (node : device_node) (s : State) :
    (k.of_property_read_u32 s node "clock-frequency" = none →
      of_fixed_clk_setup_wen k node s =
        some { heap := s.heap
               trace := s.trace ++ [Event.of_property_read_u32 node "clock-frequency"] }) ∧
    (∀ f, k.of_property_read_u32 s node "clock-frequency" = some f →
      ∃ name acc clk s4 rest,
        clk_register_fixed_rate_wen_with_accuracy k none name none 0 f acc none none
          { heap := s.heap
            trace := s.trace ++ [Event.of_property_read_u32 node "clock-frequency",
              Event.of_property_read_u32 node "clock-accuracy",
              Event.of_property_read_string node "clock-output-names"] } = some (clk, s4) ∧
        s4.trace = (s.trace ++ [Event.of_property_read_u32 node "clock-frequency",
              Event.of_property_read_u32 node "clock-accuracy",
              Event.of_property_read_string node "clock-output-names"]) ++
            Event.kzalloc :: rest ∧
        (rest = [] ∨ ∃ hw d, d.fixed_rate = f ∧
          (rest = [Event.clk_hw_register none hw d] ∨
           rest = [Event.clk_hw_register none hw d, Event.kfree hw])) ∧
        (IS_ERR clk = true → of_fixed_clk_setup_wen k node s = some s4) ∧
        (IS_ERR clk = false → ∃ c, clk = ErrPtr.ptr c ∧
          of_fixed_clk_setup_wen k node s =
            some { heap := s4.heap
                   trace := s4.trace ++ [Event.of_clk_add_provider node c] })) := by
  constructor
  · intro h
    simp [of_fixed_clk_setup_wen, h, emit]
  · intro f h
    have hu := setup_unfold k node s f h
    rw [emit_three] at hu
    obtain ⟨clk, hclk, _⟩ := clk_register_total k none
      (match k.of_property_read_string
          (emit (Event.of_property_read_u32 node "clock-accuracy")
            (emit (Event.of_property_read_u32 node "clock-frequency") s))
          node "clock-output-names" with
        | some out => some out
        | none => node.name)
      none 0 f
      ((k.of_property_read_u32 (emit (Event.of_property_read_u32 node "clock-frequency") s)
        node "clock-accuracy").getD 0)
      none none
      { heap := s.heap
        trace := s.trace ++ [Event.of_property_read_u32 node "clock-frequency",
          Event.of_property_read_u32 node "clock-accuracy",
          Event.of_property_read_string node "clock-output-names"] }
    obtain ⟨rest, hrest, hshape⟩ := register_trace k none
      (match k.of_property_read_string
          (emit (Event.of_property_read_u32 node "clock-accuracy")
            (emit (Event.of_property_read_u32 node "clock-frequency") s))
          node "clock-output-names" with
        | some out => some out
        | none => node.name)
      none 0 f
      ((k.of_property_read_u32 (emit (Event.of_property_read_u32 node "clock-frequency") s)
        node "clock-accuracy").getD 0)
      none none
      { heap := s.heap
        trace := s.trace ++ [Event.of_property_read_u32 node "clock-frequency",
          Event.of_property_read_u32 node "clock-accuracy",
          Event.of_property_read_string node "clock-output-names"] }
    rw [hclk] at hu
    refine ⟨_, _, clk, _, rest, hclk, hrest, ?_, ?_, ?_⟩
    · rcases hshape with h0 | ⟨hw, h1 | h2⟩
      · exact Or.inl h0
      · exact Or.inr ⟨hw, _, rfl, Or.inl h1⟩
      · exact Or.inr ⟨hw, _, rfl, Or.inr h2⟩
    · intro herr
      cases clk with
      | err c => exact hu
      | ptr c => simp [IS_ERR] at herr
    · intro hok
      cases clk with
      | err c => simp [IS_ERR] at hok
      | ptr c => exact ⟨c, rfl, hu⟩

/-- C8: the optional properties of `of_fixed_clk_setup_wen` are filled with
defaults.  For a node whose `clock-frequency` reads as `f`, the clock is
registered through `clk_register_fixed_rate_wen_with_accuracy` with
`fixed_rate = f`, with `fixed_accuracy` the value of `clock-accuracy` when it
is readable and 0 otherwise, with the name read from `clock-output-names`
when it is readable and the name of the node otherwise, and with no device,
no parent, flags 0 and `NULL` enable and disable callbacks; when the
allocation succeeds, the descriptor handed to `clk_hw_register` carries
exactly these values. -/
theorem setup_defaults (k : Host) (node : device_node) (s : State) (f : Nat)
    (h : k.of_property_read_u32 s node "clock-frequency" = some f) :
    ∃ name acc clk s4,
      (∀ a, k.of_property_read_u32
          { heap := s.heap
            trace := s.trace ++ [Event.of_property_read_u32 node "clock-frequency"] }
          node "clock-accuracy" = some a → acc = a) ∧
      (k.of_property_read_u32
          { heap := s.heap
            trace := s.trace ++ [Event.of_property_read_u32 node "clock-frequency"] }
          node "clock-accuracy" = none → acc = 0) ∧
      (∀ n, k.of_property_read_string
          { heap := s.heap
            trace := s.trace ++ [Event.of_property_read_u32 node "clock-frequency",
              Event.of_property_read_u32 node "clock-accuracy"] }
          node "clock-output-names" = some n → name = some n) ∧
      (k.of_property_read_string
          { heap := s.heap
            trace := s.trace ++ [Event.of_property_read_u32 node "clock-frequency",
              Event.of_property_read_u32 node "clock-accuracy"] }
          node "clock-output-names" = none → name = node.name) ∧
      clk_register_fixed_rate_wen_with_accuracy k none name none 0 f acc none none
        { heap := s.heap
          trace := s.trace ++ [Event.of_property_read_u32 node "clock-frequency",
            Event.of_property_read_u32 node "clock-accuracy",
            Event.of_property_read_string node "clock-output-names"] } = some (clk, s4) ∧
      of_fixed_clk_setup_wen k node s =
        some (match clk with
          | ErrPtr.err _ => s4
          | ErrPtr.ptr c =>
            { heap := s4.heap, trace := s4.trace ++ [Event.of_clk_add_provider node c] }) ∧
      (∀ fixed, k.kzalloc
          { heap := s.heap
            trace := s.trace ++ [Event.of_property_read_u32 node "clock-frequency",
              Event.of_property_read_u32 node "clock-accuracy",
              Event.of_property_read_string node "clock-output-names"] } = some fixed →
        ∃ d init, Event.clk_hw_register none fixed d ∈ s4.trace ∧
          d.hw.init = some init ∧ init.name = name ∧ init.num_parents = 0 ∧
          init.parent_names = none ∧ init.flags = 0 ||| k.CLK_IS_BASIC ∧
          d.dev = none ∧ d.enable = none ∧ d.disable = none ∧
          d.fixed_rate = f ∧ d.fixed_accuracy = acc) := by
  have hu := setup_unfold k node s f h
  rw [emit_three] at hu
  have e1 : emit (Event.of_property_read_u32 node "clock-frequency") s =
      { heap := s.heap
        trace := s.trace ++ [Event.of_property_read_u32 node "clock-frequency"] } := rfl
  have e2 : emit (Event.of_property_read_u32 node "clock-accuracy")
      (emit (Event.of_property_read_u32 node "clock-frequency") s) =
      { heap := s.heap
        trace := s.trace ++ [Event.of_property_read_u32 node "clock-frequency",
          Event.of_property_read_u32 node "clock-accuracy"] } := by
    simp [emit]
  rw [e2, e1] at hu
  obtain ⟨clk, hclk, _⟩ := clk_register_total k none
    (match k.of_property_read_string
        { heap := s.heap
          trace := s.trace ++ [Event.of_property_read_u32 node "clock-frequency",
            Event.of_property_read_u32 node "clock-accuracy"] }
        node "clock-output-names" with
      | some out => some out
      | none => node.name)
    none 0 f
    ((k.of_property_read_u32
      { heap := s.heap
        trace := s.trace ++ [Event.of_property_read_u32 node "clock-frequency"] }
      node "clock-accuracy").getD 0)
    none none
    { heap := s.heap
      trace := s.trace ++ [Event.of_property_read_u32 node "clock-frequency",
        Event.of_property_read_u32 node "clock-accuracy",
        Event.of_property_read_string node "clock-output-names"] }
  rw [hclk] at hu
  refine ⟨_, _, clk, _, ?_, ?_, ?_, ?_, hclk, ?_, ?_⟩
  · intro a ha
    rw [ha]
    rfl
  · intro ha
    rw [ha]
    rfl
  · intro n hn
    rw [hn]
  · intro hn
    rw [hn]
  · rw [hu]
    cases clk <;> rfl
  · intro fixed hk
    have hmem := register_call_traced k none
      (match k.of_property_read_string
          { heap := s.heap
            trace := s.trace ++ [Event.of_property_read_u32 node "clock-frequency",
              Event.of_property_read_u32 node "clock-accuracy"] }
          node "clock-output-names" with
        | some out => some out
        | none => node.name)
      none 0 f
      ((k.of_property_read_u32
        { heap := s.heap
          trace := s.trace ++ [Event.of_property_read_u32 node "clock-frequency"] }
        node "clock-accuracy").getD 0)
      none none _ fixed hk
    exact ⟨_, _, hmem, rfl, rfl, rfl, rfl, rfl, rfl, rfl, rfl, rfl, rfl⟩

end ClkFixedRateWen

namespace ClkFixedRateWen

/-- Witness for C8: on a device tree that gives the node `osc` a frequency of
24 MHz, an accuracy of 100 and the output name `xtal`, the statement applies
with `f = 24000000`. -/
theorem setup_defaults_witness :
    host_full.of_property_read_u32 s0 osc_node "clock-frequency" = some 24000000 ∧
    (∃ clk s4,
      clk_register_fixed_rate_wen_with_accuracy host_full none (some "xtal") none 0 24000000
        100 none none
        { heap := []
          trace := [Event.of_property_read_u32 osc_node "clock-frequency",
            Event.of_property_read_u32 osc_node "clock-accuracy",
            Event.of_property_read_string osc_node "clock-output-names"] } = some (clk, s4) ∧
      of_fixed_clk_setup_wen host_full osc_node s0 =
        some (match clk with
          | ErrPtr.err _ => s4
          | ErrPtr.ptr c =>
            { heap := s4.heap
              trace := s4.trace ++ [Event.of_clk_add_provider osc_node c] })) := by
  refine ⟨rfl, ?_⟩
  obtain ⟨name, acc, clk, s4, ha, _, hn, _, hreg, hsetup, _⟩ :=
    setup_defaults host_full osc_node s0 24000000 rfl
  have hacc : acc = 100 := ha 100 rfl
  have hname : name = some "xtal" := hn "xtal" rfl
  subst hacc
  subst hname
  exact ⟨clk, s4, hreg, hsetup⟩

/-- Witness for C7: on a device tree without `clock-frequency` (but with the
two other properties) the setup only makes the one failed read. -/
theorem setup_requires_frequency_witness :
    host_nofreq.of_property_read_u32 s0 osc_node "clock-frequency" = none ∧
    of_fixed_clk_setup_wen host_nofreq osc_node s0 =
      some { heap := [], trace := [Event.of_property_read_u32 osc_node "clock-frequency"] } :=
  ⟨rfl, (setup_requires_frequency host_nofreq osc_node s0).1 rfl⟩

end ClkFixedRateWen

namespace SetupFb24bpp

/-! ## The three paths of the pin setup -/

theorem run_request_failed (k : Host) (t : List Event)
    (hv : k.gpio_is_valid (k.S3C64XX_GPE 0) = true)
    (hr : k.gpio_request
      (t ++ [Event.s3c_gpio_cfgrange_nopull (k.S3C64XX_GPI 0) 16 (k.S3C_GPIO_SFN 2),
        Event.s3c_gpio_cfgrange_nopull (k.S3C64XX_GPJ 0) 12 (k.S3C_GPIO_SFN 2)])
      (k.S3C64XX_GPE 0) "GPE" ≠ 0) :
    run k t =
      [Event.s3c_gpio_cfgrange_nopull (k.S3C64XX_GPI 0) 16 (k.S3C_GPIO_SFN 2),
        Event.s3c_gpio_cfgrange_nopull (k.S3C64XX_GPJ 0) 12 (k.S3C_GPIO_SFN 2),
        Event.gpio_request (k.S3C64XX_GPE 0) "GPE",
        Event.printk "KERN_ERR" "failed to request GPE for lcd reset control\n"] := by
  simp [run, s3c64xx_fb_gpio_setup_24bpp, hv, hr]

theorem run_request_ok (k : Host) (t : List Event)
    (hv : k.gpio_is_valid (k.S3C64XX_GPE 0) = true)
    (hr : k.gpio_request
      (t ++ [Event.s3c_gpio_cfgrange_nopull (k.S3C64XX_GPI 0) 16 (k.S3C_GPIO_SFN 2),
        Event.s3c_gpio_cfgrange_nopull (k.S3C64XX_GPJ 0) 12 (k.S3C_GPIO_SFN 2)])
      (k.S3C64XX_GPE 0) "GPE" = 0) :
    run k t =
      [Event.s3c_gpio_cfgrange_nopull (k.S3C64XX_GPI 0) 16 (k.S3C_GPIO_SFN 2),
        Event.s3c_gpio_cfgrange_nopull (k.S3C64XX_GPJ 0) 12 (k.S3C_GPIO_SFN 2),
        Event.gpio_request (k.S3C64XX_GPE 0) "GPE",
        Event.gpio_direction_output (k.S3C64XX_GPE 0) 1,
        Event.gpio_set_value (k.S3C64XX_GPE 0) 1,
        Event.gpio_free (k.S3C64XX_GPE 0)] := by
  simp [run, s3c64xx_fb_gpio_setup_24bpp, hv, hr]

theorem run_pin_invalid (k : Host) (t : List Event)
    (hv : k.gpio_is_valid (k.S3C64XX_GPE 0) = false) :
    run k t =
      [Event.s3c_gpio_cfgrange_nopull (k.S3C64XX_GPI 0) 16 (k.S3C_GPIO_SFN 2),
        Event.s3c_gpio_cfgrange_nopull (k.S3C64XX_GPJ 0) 12 (k.S3C_GPIO_SFN 2),
        Event.gpio_set_value (k.S3C64XX_GPE 0) 1,
        Event.gpio_free (k.S3C64XX_GPE 0)] := by
  simp [run, s3c64xx_fb_gpio_setup_24bpp, hv]

theorem setup_extends (k : Host) (t : List Event) :
    s3c64xx_fb_gpio_setup_24bpp k t = t ++ run k t := by
  unfold run s3c64xx_fb_gpio_setup_24bpp
  by_cases hv : k.gpio_is_valid (k.S3C64XX_GPE 0) = true
  · by_cases hr : k.gpio_request
        (t ++ [Event.s3c_gpio_cfgrange_nopull (k.S3C64XX_GPI 0) 16 (k.S3C_GPIO_SFN 2),
          Event.s3c_gpio_cfgrange_nopull (k.S3C64XX_GPJ 0) 12 (k.S3C_GPIO_SFN 2)])
        (k.S3C64XX_GPE 0) "GPE" = 0
    · simp [hv, hr]
    · simp [hv, hr]
  · simp [hv]

/-- C6: the pin request is the single fallible step.  The calls of one run of
`s3c64xx_fb_gpio_setup_24bpp` contain no `gpio_direction_output`,
`gpio_set_value` or `gpio_free` on `GPE(0)` if and only if `GPE(0)` is valid
and `gpio_request(GPE(0), "GPE")` returned nonzero; in that case exactly one
message is logged and it is the last call.  In every other case the run ends
with `gpio_set_value(GPE(0), 1)` followed by `gpio_free(GPE(0))`, and when the
pin is not valid it is never requested. -/
theorem request_is_the_fallible_step (k : Host) (t : List Event) :
    s3c64xx_fb_gpio_setup_24bpp k t = t ++ run k t ∧
    ((∀ e ∈ run k t, drives_or_frees (k.S3C64XX_GPE 0) e = false) ↔
      (k.gpio_is_valid (k.S3C64XX_GPE 0) = true ∧
        k.gpio_request
          (t ++ [Event.s3c_gpio_cfgrange_nopull (k.S3C64XX_GPI 0) 16 (k.S3C_GPIO_SFN 2),
            Event.s3c_gpio_cfgrange_nopull (k.S3C64XX_GPJ 0) 12 (k.S3C_GPIO_SFN 2)])
          (k.S3C64XX_GPE 0) "GPE" ≠ 0)) ∧
    ((k.gpio_is_valid (k.S3C64XX_GPE 0) = true ∧
        k.gpio_request
          (t ++ [Event.s3c_gpio_cfgrange_nopull (k.S3C64XX_GPI 0) 16 (k.S3C_GPIO_SFN 2),
            Event.s3c_gpio_cfgrange_nopull (k.S3C64XX_GPJ 0) 12 (k.S3C_GPIO_SFN 2)])
          (k.S3C64XX_GPE 0) "GPE" ≠ 0) →
      (run k t).countP is_printk = 1 ∧
      (run k t).getLast? =
        some (Event.printk "KERN_ERR" "failed to request GPE for lcd reset control\n")) ∧
    (¬ (k.gpio_is_valid (k.S3C64XX_GPE 0) = true ∧
        k.gpio_request
          (t ++ [Event.s3c_gpio_cfgrange_nopull (k.S3C64XX_GPI 0) 16 (k.S3C_GPIO_SFN 2),
            Event.s3c_gpio_cfgrange_nopull (k.S3C64XX_GPJ 0) 12 (k.S3C_GPIO_SFN 2)])
          (k.S3C64XX_GPE 0) "GPE" ≠ 0) →
      (run k t).countP is_printk = 0 ∧
      ∃ before, run k t = before ++
        [Event.gpio_set_value (k.S3C64XX_GPE 0) 1, Event.gpio_free (k.S3C64XX_GPE 0)]) ∧
    (k.gpio_is_valid (k.S3C64XX_GPE 0) = false →
      ∀ pin label, Event.gpio_request pin label ∉ run k t) := by
  refine ⟨setup_extends k t, ?_, ?_, ?_, ?_⟩
  · by_cases hv : k.gpio_is_valid (k.S3C64XX_GPE 0) = true
    · by_cases hr : k.gpio_request
          (t ++ [Event.s3c_gpio_cfgrange_nopull (k.S3C64XX_GPI 0) 16 (k.S3C_GPIO_SFN 2),
            Event.s3c_gpio_cfgrange_nopull (k.S3C64XX_GPJ 0) 12 (k.S3C_GPIO_SFN 2)])
          (k.S3C64XX_GPE 0) "GPE" = 0
      · rw [run_request_ok k t hv hr]
        simp [drives_or_frees, hr]
      · rw [run_request_failed k t hv hr]
        simp [drives_or_frees, hv, hr]
    · simp only [Bool.not_eq_true] at hv
      rw [run_pin_invalid k t hv]
      simp [drives_or_frees, hv]
  · rintro ⟨hv, hr⟩
    rw [run_request_failed k t hv hr]
    simp [is_printk, List.countP_cons]
  · intro hn
    by_cases hv : k.gpio_is_valid (k.S3C64XX_GPE 0) = true
    · have hr : k.gpio_request
          (t ++ [Event.s3c_gpio_cfgrange_nopull (k.S3C64XX_GPI 0) 16 (k.S3C_GPIO_SFN 2),
            Event.s3c_gpio_cfgrange_nopull (k.S3C64XX_GPJ 0) 12 (k.S3C_GPIO_SFN 2)])
          (k.S3C64XX_GPE 0) "GPE" = 0 := by
        by_contra hne
        exact hn ⟨hv, hne⟩
      rw [run_request_ok k t hv hr]
      refine ⟨by simp [is_printk, List.countP_cons], ?_⟩
      exact ⟨[Event.s3c_gpio_cfgrange_nopull (k.S3C64XX_GPI 0) 16 (k.S3C_GPIO_SFN 2),
        Event.s3c_gpio_cfgrange_nopull (k.S3C64XX_GPJ 0) 12 (k.S3C_GPIO_SFN 2),
        Event.gpio_request (k.S3C64XX_GPE 0) "GPE",
        Event.gpio_direction_output (k.S3C64XX_GPE 0) 1], rfl⟩
    · simp only [Bool.not_eq_true] at hv
      rw [run_pin_invalid k t hv]
      refine ⟨by simp [is_printk, List.countP_cons], ?_⟩
      exact ⟨[Event.s3c_gpio_cfgrange_nopull (k.S3C64XX_GPI 0) 16 (k.S3C_GPIO_SFN 2),
        Event.s3c_gpio_cfgrange_nopull (k.S3C64XX_GPJ 0) 12 (k.S3C_GPIO_SFN 2)], rfl⟩
  · intro hv pin label
    rw [run_pin_invalid k t hv]
    simp

end SetupFb24bpp

namespace SetupFb24bpp

/-- Witness for C6: when the reset pin is busy, the run is the two range
configurations, the failed request and the log message, and nothing drives or
frees the pin. -/
theorem request_is_the_fallible_step_witness :
    run s3c6410_busy [] =
      [Event.s3c_gpio_cfgrange_nopull 74 16 0xfffffff2,
        Event.s3c_gpio_cfgrange_nopull 91 12 0xfffffff2,
        Event.gpio_request 32 "GPE",
        Event.printk "KERN_ERR" "failed to request GPE for lcd reset control\n"] ∧
    (∀ e ∈ run s3c6410_busy [], drives_or_frees (s3c6410_busy.S3C64XX_GPE 0) e = false) :=
  ⟨by decide,
    (request_is_the_fallible_step s3c6410_busy []).2.1.mpr ⟨by decide, by decide⟩⟩

/-! ## How many pins, and which levels -/

/-- C9, counterexample: on the S3C6410 numbering with a successful request,
the pins configured to special function 2 are 28 distinct pins, not six, and
the reset line is driven to level 1 only, never to level 0. -/
theorem not_six_pins_not_both_levels :
    ¬ (((configured_pins (s3c6410.S3C_GPIO_SFN 2) (run s3c6410 [])).dedup.length = 6) ∧
        (0 ∈ levels_driven (s3c6410.S3C64XX_GPE 0) (run s3c6410 []) ∧
         1 ∈ levels_driven (s3c6410.S3C64XX_GPE 0) (run s3c6410 []))) := by
  decide

theorem range_pair_nodup (a b : Nat) (h : a + 16 ≤ b ∨ b + 12 ≤ a) :
    (List.range' a 16 ++ List.range' b 12).Nodup := by
  rw [List.nodup_append]
  refine ⟨List.nodup_range' a 16, List.nodup_range' b 12, ?_⟩
  intro x hx hy
  rw [List.mem_range'_1] at hx hy
  omega

/-- C9, amended: on every run the pins configured to special function 2 are
the 16 pins from `GPI(0)` followed by the 12 pins from `GPJ(0)`, which is 28
pins, all distinct when the two ranges do not overlap; and on the successful
path (valid pin, request returning 0) the reset line `GPE(0)` is driven twice,
both times to level 1, so never to level 0. -/
theorem pins_and_reset_levels (k : Host) (t : List Event) :
    configured_pins (k.S3C_GPIO_SFN 2) (run k t) =
      List.range' (k.S3C64XX_GPI 0) 16 ++ List.range' (k.S3C64XX_GPJ 0) 12 ∧
    (configured_pins (k.S3C_GPIO_SFN 2) (run k t)).length = 28 ∧
    ((k.S3C64XX_GPI 0 + 16 ≤ k.S3C64XX_GPJ 0 ∨ k.S3C64XX_GPJ 0 + 12 ≤ k.S3C64XX_GPI 0) →
      (configured_pins (k.S3C_GPIO_SFN 2) (run k t)).dedup.length = 28) ∧
    (k.gpio_is_valid (k.S3C64XX_GPE 0) = true →
      k.gpio_request
        (t ++ [Event.s3c_gpio_cfgrange_nopull (k.S3C64XX_GPI 0) 16 (k.S3C_GPIO_SFN 2),
          Event.s3c_gpio_cfgrange_nopull (k.S3C64XX_GPJ 0) 12 (k.S3C_GPIO_SFN 2)])
        (k.S3C64XX_GPE 0) "GPE" = 0 →
      levels_driven (k.S3C64XX_GPE 0) (run k t) = [1, 1] ∧
      0 ∉ levels_driven (k.S3C64XX_GPE 0) (run k t)) := by
  have hpins : configured_pins (k.S3C_GPIO_SFN 2) (run k t) =
      List.range' (k.S3C64XX_GPI 0) 16 ++ List.range' (k.S3C64XX_GPJ 0) 12 := by
    by_cases hv : k.gpio_is_valid (k.S3C64XX_GPE 0) = true
    · by_cases hr : k.gpio_request
          (t ++ [Event.s3c_gpio_cfgrange_nopull (k.S3C64XX_GPI 0) 16 (k.S3C_GPIO_SFN 2),
            Event.s3c_gpio_cfgrange_nopull (k.S3C64XX_GPJ 0) 12 (k.S3C_GPIO_SFN 2)])
          (k.S3C64XX_GPE 0) "GPE" = 0
      · rw [run_request_ok k t hv hr]
        simp [configured_pins]
      · rw [run_request_failed k t hv hr]
        simp [configured_pins]
    · simp only [Bool.not_eq_true] at hv
      rw [run_pin_invalid k t hv]
      simp [configured_pins]
  refine ⟨hpins, ?_, ?_, ?_⟩
  · rw [hpins]
    simp
  · intro hd
    rw [hpins, (range_pair_nodup _ _ hd).dedup]
    simp
  · intro hv hr
    rw [run_request_ok k t hv hr]
    simp [levels_driven]

/-- Witness for C9, amended: on the S3C6410 numbering, where `GPI` starts at
74 and `GPJ` at 91, the 28 pins are distinct, and with a successful request
the levels driven on pin 32 are 1 and 1. -/
theorem pins_and_reset_levels_witness :
    (configured_pins (s3c6410.S3C_GPIO_SFN 2) (run s3c6410 [])).dedup.length = 28 ∧
    levels_driven (s3c6410.S3C64XX_GPE 0) (run s3c6410 []) = [1, 1] :=
  ⟨(pins_and_reset_levels s3c6410 []).2.2.1 (Or.inl (by decide)),
    ((pins_and_reset_levels s3c6410 []).2.2.2 (by decide) (by decide)).1⟩

end SetupFb24bpp
